import Mathlib

/-!
Shallow embedding of `actions/actions.py` from the Book_meeting_chatbot
repository (Rasa custom actions for Google Calendar), together with proofs
of the frozen claims about it.

Modelling conventions:
- `datetime.strptime(s, "%d/%m/%y %H:%M:%S")` is embedded as `strptime`,
  following CPython `_strptime`: the format compiles to the regex
  `(3[01]|[12]\d|0[1-9]|[1-9])/(1[0-2]|0[1-9]|[1-9])/(\d\d)\s+`
  `(2[0-3]|[0-1]\d|\d):([0-5]\d|\d):(6[0-1]|[0-5]\d|\d)` anchored at the
  start; a match with trailing input raises "unconverted data remains";
  the `datetime` constructor then validates the fields.  Digits and
  whitespace are modelled over ASCII (CPython also accepts other Unicode
  decimal digits; those are out of scope of this embedding).
- Remote-service behaviour (token load, refresh, OAuth flow, save, build,
  list, insert) is an oracle environment: each remote step's outcome is an
  `Except String _` field, where `Except.error msg` stands for the Python
  call raising an exception whose `str` is `msg`.  Logging via `print` is
  not modelled.
- `pytz.timezone("Asia/Ho_Chi_Minh").localize` attaches the historical
  UTC offset: +08:00 for civil times before 1975-06-13 00:00:00 and
  +07:00 from then on (tzdata; the %y pivot keeps parsed years in
  1969..2068, so no earlier transition is reachable).  The one-hour
  ambiguity window at the 1975 transition is resolved to the
  pre-transition offset here; no claim touches it.
- Python aware `datetime + timedelta(hours=1)` adds one hour of civil
  time with calendar carry and keeps the `tzinfo` (hence the offset) of
  the left operand; `addOneHour` implements exactly that.
- Dictionary access: `d["k"]` on a missing key raises `KeyError`, whose
  `str` is the repr of the key (e.g. `\x27summary\x27`); `d.get(k, dflt)`
  returns `dflt` when absent.  An f-string renders Python `None` as the
  text "None".
-/

/-! ## Calendar arithmetic (Gregorian, as in Python `datetime`) -/

def isLeap (y : Nat) : Bool :=
  y % 4 == 0 && (y % 100 != 0 || y % 400 == 0)

def daysInMonth (y m : Nat) : Nat :=
  if m == 2 then (if isLeap y then 29 else 28)
  else if m == 4 || m == 6 || m == 9 || m == 11 then 30
  else 31

/-- Days in years `1 .. y-1` (proleptic Gregorian, as `datetime.toordinal`). -/
def daysBeforeYear (y : Nat) : Nat :=
  (y - 1) * 365 + ((y - 1) / 4 + (y - 1) / 400 - (y - 1) / 100)

/-- Days in months `1 .. m-1` of year `y`. -/
def daysBeforeMonth (y : Nat) : Nat → Nat
  | 0 => 0
  | 1 => 0
  | m + 2 => daysBeforeMonth y (m + 1) + daysInMonth y (m + 1)

/-- A naive `datetime.datetime` (microseconds are always 0 here). -/
structure NaiveDT where
  year : Nat
  month : Nat
  day : Nat
  hour : Nat
  minute : Nat
  second : Nat
deriving DecidableEq, Repr

def NaiveDT.toDays (t : NaiveDT) : Nat :=
  daysBeforeYear t.year + daysBeforeMonth t.year t.month + (t.day - 1)

/-- Seconds since 0001-01-01 00:00:00 of a civil datetime. -/
def NaiveDT.toSeconds (t : NaiveDT) : Nat :=
  t.toDays * 86400 + t.hour * 3600 + t.minute * 60 + t.second

/-- The field ranges `datetime.datetime` enforces. -/
def NaiveDT.Valid (t : NaiveDT) : Prop :=
  1 ≤ t.year ∧ t.year ≤ 9999 ∧
  1 ≤ t.month ∧ t.month ≤ 12 ∧
  1 ≤ t.day ∧ t.day ≤ daysInMonth t.year t.month ∧
  t.hour ≤ 23 ∧ t.minute ≤ 59 ∧ t.second ≤ 59

instance (t : NaiveDT) : Decidable t.Valid := by
  unfold NaiveDT.Valid; infer_instance

/-- `t + timedelta(hours=1)` on the civil fields (calendar carry). -/
def NaiveDT.addOneHour (t : NaiveDT) : NaiveDT :=
  if t.hour + 1 ≤ 23 then { t with hour := t.hour + 1 }
  else if t.day + 1 ≤ daysInMonth t.year t.month then
    { t with hour := 0, day := t.day + 1 }
  else if t.month + 1 ≤ 12 then
    { t with hour := 0, day := 1, month := t.month + 1 }
  else
    { t with hour := 0, day := 1, month := 1, year := t.year + 1 }

/-! ## The strptime parser for the fixed format -/

def digitVal (c : Char) : Nat := c.toNat - 48

/-- Scan a field whose regex is a two-digit alternative (tested first, as
CPython orders the alternation) with a one-digit fallback; the character
after the field in the format is never a digit, so no further
backtracking can occur. -/
def scan2or1 (twoOk : Nat → Nat → Bool) (oneOk : Nat → Bool) :
    List Char → Option (Nat × List Char)
  | c1 :: c2 :: rest =>
    if c1.isDigit && c2.isDigit && twoOk (digitVal c1) (digitVal c2) then
      some (digitVal c1 * 10 + digitVal c2, rest)
    else if c1.isDigit && oneOk (digitVal c1) then
      some (digitVal c1, c2 :: rest)
    else none
  | [c1] =>
    if c1.isDigit && oneOk (digitVal c1) then some (digitVal c1, []) else none
  | [] => none

/-- `%d` : `3[01]|[12]\d|0[1-9]|[1-9]`. -/
def scanDay : List Char → Option (Nat × List Char) :=
  scan2or1
    (fun d1 d2 => (d1 == 3 && d2 ≤ 1) || d1 == 1 || d1 == 2 || (d1 == 0 && 1 ≤ d2))
    (fun d => 1 ≤ d)

/-- `%m` : `1[0-2]|0[1-9]|[1-9]`. -/
def scanMonth : List Char → Option (Nat × List Char) :=
  scan2or1
    (fun d1 d2 => (d1 == 1 && d2 ≤ 2) || (d1 == 0 && 1 ≤ d2))
    (fun d => 1 ≤ d)

/-- `%H` : `2[0-3]|[0-1]\d|\d`. -/
def scanHour : List Char → Option (Nat × List Char) :=
  scan2or1 (fun d1 d2 => (d1 == 2 && d2 ≤ 3) || d1 ≤ 1) (fun _ => true)

/-- `%M` : `[0-5]\d|\d`. -/
def scanMinute : List Char → Option (Nat × List Char) :=
  scan2or1 (fun d1 _ => d1 ≤ 5) (fun _ => true)

/-- `%S` : `6[0-1]|[0-5]\d|\d`. -/
def scanSecond : List Char → Option (Nat × List Char) :=
  scan2or1 (fun d1 d2 => d1 ≤ 5 || (d1 == 6 && d2 ≤ 1)) (fun _ => true)

/-- `%y` : `\d\d` (exactly two digits). -/
def scanYY : List Char → Option (Nat × List Char)
  | c1 :: c2 :: rest =>
    if c1.isDigit && c2.isDigit then
      some (digitVal c1 * 10 + digitVal c2, rest)
    else none
  | _ => none

def expectChar (c : Char) : List Char → Option (List Char)
  | c1 :: rest => if c1 == c then some rest else none
  | [] => none

def isPyWs (c : Char) : Bool :=
  c == ' ' || c == '\t' || c == '\n' || c == '\r' || c == '\x0b' || c == '\x0c'

/-- Whitespace in the format becomes `\s+`: one or more whitespace chars
(the next regex atom is a digit class, so greed is harmless). -/
def scanWs : List Char → Option (List Char)
  | c :: rest => if isPyWs c then some (rest.dropWhile isPyWs) else none
  | [] => none

/-- The anchored regex for `%d/%m/%y %H:%M:%S`; returns the six numeric
fields and the unconsumed remainder of the input. -/
def scanFormat (l : List Char) :
    Option (Nat × Nat × Nat × Nat × Nat × Nat × List Char) := do
  let (d, l) ← scanDay l
  let l ← expectChar '/' l
  let (m, l) ← scanMonth l
  let l ← expectChar '/' l
  let (y, l) ← scanYY l
  let l ← scanWs l
  let (hh, l) ← scanHour l
  let l ← expectChar ':' l
  let (mi, l) ← scanMinute l
  let l ← expectChar ':' l
  let (ss, l) ← scanSecond l
  pure (d, m, y, hh, mi, ss, l)

/-- Field validation done by the `datetime.datetime` constructor, with
CPython error texts. -/
def mkDatetime (year month day hour minute second : Nat) :
    Except String NaiveDT :=
  if !(1 ≤ year && year ≤ 9999) then
    .error ("year " ++ toString year ++ " is out of range")
  else if !(1 ≤ month && month ≤ 12) then .error "month must be in 1..12"
  else if !(1 ≤ day && day ≤ daysInMonth year month) then
    .error "day is out of range for month"
  else if !(hour ≤ 23) then .error "hour must be in 0..23"
  else if !(minute ≤ 59) then .error "minute must be in 0..59"
  else if !(second ≤ 59) then .error "second must be in 0..59"
  else .ok ⟨year, month, day, hour, minute, second⟩

/-- `datetime.strptime(s, "%d/%m/%y %H:%M:%S")`; `Except.error msg` is the
`ValueError` with message `msg`. -/
def strptime (s : String) : Except String NaiveDT :=
  match scanFormat s.data with
  | none =>
    .error ("time data \x27" ++ s ++
      "\x27 does not match format \x27%d/%m/%y %H:%M:%S\x27")
  | some (d, m, y, hh, mi, ss, rest) =>
    if rest.isEmpty then
      let year := if y ≤ 68 then y + 2000 else y + 1900
      mkDatetime year m d hh mi ss
    else .error ("unconverted data remains: " ++ String.mk rest)

/-! ## Aware datetimes, localize, isoformat, strftime -/

/-- An aware datetime: civil fields plus the fixed UTC offset (in hours)
that `pytz` attached at `localize` time. -/
structure AwareDT where
  dt : NaiveDT
  offsetHours : Nat
deriving DecidableEq, Repr

/-- Civil time strictly before 1975-06-13 00:00:00. -/
def before1975Jun13 (t : NaiveDT) : Bool :=
  t.year < 1975 || (t.year == 1975 &&
    (t.month < 6 || (t.month == 6 && t.day < 13)))

/-- `pytz.timezone("Asia/Ho_Chi_Minh").localize(t)`: +08:00 before the
1975-06-13 transition, +07:00 from then on (see header note). -/
def hcmLocalize (t : NaiveDT) : AwareDT :=
  ⟨t, if before1975Jun13 t then 8 else 7⟩

/-- Aware `+ timedelta(hours=1)`: civil carry, tzinfo (offset) kept. -/
def AwareDT.addOneHour (a : AwareDT) : AwareDT :=
  ⟨a.dt.addOneHour, a.offsetHours⟩

def pad2 (n : Nat) : String :=
  if n ≤ 9 then "0" ++ toString n else toString n

def pad4 (n : Nat) : String :=
  if n ≤ 9 then "000" ++ toString n
  else if n ≤ 99 then "00" ++ toString n
  else if n ≤ 999 then "0" ++ toString n
  else toString n

/-- `datetime.isoformat()` of an aware datetime with zero microseconds:
`YYYY-MM-DDTHH:MM:SS+0X:00`. -/
def AwareDT.isoformat (a : AwareDT) : String :=
  pad4 a.dt.year ++ "-" ++ pad2 a.dt.month ++ "-" ++ pad2 a.dt.day ++ "T" ++
  pad2 a.dt.hour ++ ":" ++ pad2 a.dt.minute ++ ":" ++ pad2 a.dt.second ++
  "+" ++ pad2 a.offsetHours ++ ":00"

/-- `strftime("%d/%m/%y %H:%M:%S")` (all fields zero-padded, `%y` is
`year mod 100`). -/
def AwareDT.strftimeDDMMYY (a : AwareDT) : String :=
  pad2 a.dt.day ++ "/" ++ pad2 a.dt.month ++ "/" ++ pad2 (a.dt.year % 100) ++
  " " ++ pad2 a.dt.hour ++ ":" ++ pad2 a.dt.minute ++ ":" ++ pad2 a.dt.second

/-! ## The remote-service oracle environment -/

/-- Truthiness-relevant state of a `google.oauth2` credential object. -/
structure Creds where
  valid : Bool
  expired : Bool
  has_refresh_token : Bool
deriving DecidableEq, Repr

instance exceptDecEq {ε α : Type} [DecidableEq ε] [DecidableEq α] :
    DecidableEq (Except ε α) := fun x y =>
  match x, y with
  | .ok a, .ok b =>
    if h : a = b then isTrue (by rw [h]) else isFalse (by simp [h])
  | .error a, .error b =>
    if h : a = b then isTrue (by rw [h]) else isFalse (by simp [h])
  | .ok _, .error _ => isFalse (by simp)
  | .error _, .ok _ => isFalse (by simp)

/-- Outcomes of every remote / IO step `get_calendar_service` performs.
`Except.error msg` stands for the Python step raising an exception whose
`str` is `msg`. -/
structure ServiceEnv where
  token_file_exists : Bool
  load_result : Except String Creds
  refresh_result : Except String Unit
  flow_result : Except String Creds
  save_result : Except String Unit
  build_result : Except String Unit
deriving DecidableEq, Repr

/-- The credential phase of `get_calendar_service` (everything before the
`try: build` block); an `Except.error` here propagates to the caller. -/
def acquire_creds (env : ServiceEnv) : Except String Creds := do
  let creds0 : Option Creds ←
    if env.token_file_exists then Except.map some env.load_result
    else pure none
  match creds0 with
  | some c =>
    if c.valid then pure c
    else do
      let c2 ←
        if c.expired && c.has_refresh_token then do
          let _ ← env.refresh_result
          pure c
        else env.flow_result
      let _ ← env.save_result
      pure c2
  | none => do
    let c2 ← env.flow_result
    let _ ← env.save_result
    pure c2

/-- `get_calendar_service()`: only the `build` call sits inside a
`try/except`; a `build` error is logged and turned into `None`
(`Except.ok none`), while an error in the credential phase propagates
(`Except.error`). -/
def get_calendar_service (env : ServiceEnv) : Except String (Option Unit) := do
  let _ ← acquire_creds env
  match env.build_result with
  | .ok s => pure (some s)
  | .error _ => pure none

/-! ## Calendar events and the two client operations -/

/-- The `start` sub-dictionary of a Google API event: either key may be
absent. -/
structure EventStart where
  dateTime : Option String
  date : Option String
deriving DecidableEq, Repr

/-- A Google API event as read by the handlers: only the keys the code
accesses are modelled; `none` means the key is absent. -/
structure CalEvent where
  summary : Option String
  start : Option EventStart
deriving DecidableEq, Repr

/-- The event body `add_event` constructs and submits. -/
structure EventBody where
  summary : String
  location : String
  description : String
  startDateTime : String
  startTimeZone : String
  endDateTime : String
  endTimeZone : String
  remindersUseDefault : Bool
deriving DecidableEq, Repr

def newEventBody (event_name : String) (event_start event_end : AwareDT) :
    EventBody :=
  { summary := event_name
    location := "Default Location"
    description := "Automatically added event"
    startDateTime := event_start.isoformat
    startTimeZone := "Asia/Ho_Chi_Minh"
    endDateTime := event_end.isoformat
    endTimeZone := "Asia/Ho_Chi_Minh"
    remindersUseDefault := true }

/-- `add_event(service, event_name, event_start, event_end)`: builds the
body, submits it; an `HttpError` (the oracle's `Except.error`) is caught
and turned into `None`. -/
def add_event (_service : Unit) (event_name : String)
    (event_start event_end : AwareDT)
    (remote : Except String CalEvent) : Option CalEvent :=
  let _new_event := newEventBody event_name event_start event_end
  match remote with
  | .ok created => some created
  | .error _ => none

/-- `get_events(service, time_min, time_max)`: an `HttpError` (the
oracle's `Except.error`) is caught and turned into the empty list. -/
def get_events (_service : Unit) (_time_min _time_max : String)
    (remote : Except String (List CalEvent)) : List CalEvent :=
  match remote with
  | .ok events => events
  | .error _ => []

/-- The list the handler actually receives for a given remote outcome. -/
def listOutcome (remote : Except String (List CalEvent)) : List CalEvent :=
  match remote with
  | .ok events => events
  | .error _ => []

/-! ## Slots, dispatcher, tracker -/

/-- The only Rasa event either handler ever emits. -/
inductive SlotEvent where
  | allSlotsReset
deriving DecidableEq, Repr

/-- Python truthiness of a slot value: `None` and `""` are falsy. -/
def pyFalsy : Option String → Bool
  | none => true
  | some s => s == ""

/-- How an f-string renders an optional value (`None` prints as "None"). -/
def pyOptStr : Option String → String
  | some s => s
  | none => "None"

/-! ## AddEventToCalendar.run -/

/-- Everything `AddEventToCalendar.run` reads: the two tracker slots and
the oracle outcomes of the remote calls it may make. -/
structure AddEnv where
  event_slot : Option String
  time_slot : Option String
  service_env : ServiceEnv
  list_result : Except String (List CalEvent)
  insert_result : Except String CalEvent
deriving DecidableEq, Repr

/-- Observable outcome of one `AddEventToCalendar.run` invocation:
messages uttered in order, the returned Rasa events, and the arguments
of the `get_events` / `add_event` calls (none when not called). -/
structure AddResult where
  messages : List String
  returned : List SlotEvent
  listCall : Option (String × String)
  insertCall : Option (String × AwareDT × AwareDT)
deriving DecidableEq, Repr

def AddEventToCalendar.run (env : AddEnv) : AddResult :=
  let event_name := env.event_slot
  let time_str := env.time_slot
  if pyFalsy event_name || pyFalsy time_str then
    { messages := ["Please provide both the event name and time."],
      returned := [SlotEvent.allSlotsReset],
      listCall := none, insertCall := none }
  else
    match strptime (time_str.getD "") with
    | .error ve =>
      { messages := ["Time parsing error: " ++ ve ++
          ". Please ensure the time is in \x27DD/MM/YY HH:MM:SS\x27 format."],
        returned := [SlotEvent.allSlotsReset],
        listCall := none, insertCall := none }
    | .ok parsed =>
      let event_start_time := hcmLocalize parsed
      let event_end_time := event_start_time.addOneHour
      let time_min := event_start_time.isoformat
      let time_max := event_end_time.isoformat
      match get_calendar_service env.service_env with
      | .error e =>
        { messages := ["An unexpected error occurred: " ++ e],
          returned := [SlotEvent.allSlotsReset],
          listCall := none, insertCall := none }
      | .ok none =>
        { messages := ["Failed to initialize Google Calendar service."],
          returned := [SlotEvent.allSlotsReset],
          listCall := none, insertCall := none }
      | .ok (some service) =>
        let existing_events := get_events service time_min time_max env.list_result
        match existing_events with
        | conflicting_event :: _ =>
          match conflicting_event.start with
          | none =>
            { messages := ["An unexpected error occurred: \x27start\x27"],
              returned := [SlotEvent.allSlotsReset],
              listCall := some (time_min, time_max), insertCall := none }
          | some st =>
            let event_start := (st.dateTime.orElse fun _ => st.date)
            match conflicting_event.summary with
            | none =>
              { messages := ["An unexpected error occurred: \x27summary\x27"],
                returned := [SlotEvent.allSlotsReset],
                listCall := some (time_min, time_max), insertCall := none }
            | some summ =>
              { messages := ["Cannot create new event because the time slot is already taken by \x27" ++
                  summ ++ "\x27 at " ++ pyOptStr event_start ++ "."],
                returned := [SlotEvent.allSlotsReset],
                listCall := some (time_min, time_max), insertCall := none }
        | [] =>
          let created_event :=
            add_event service (event_name.getD "") event_start_time
              event_end_time env.insert_result
          match created_event with
          | some _ =>
            { messages := ["Event \x27" ++ event_name.getD "" ++
                "\x27 successfully added to your calendar from " ++
                event_start_time.strftimeDDMMYY ++ " to " ++
                event_end_time.strftimeDDMMYY ++ "."],
              returned := [SlotEvent.allSlotsReset],
              listCall := some (time_min, time_max),
              insertCall := some (event_name.getD "", event_start_time, event_end_time) }
          | none =>
            { messages := ["Failed to add the event due to an internal error."],
              returned := [SlotEvent.allSlotsReset],
              listCall := some (time_min, time_max),
              insertCall := some (event_name.getD "", event_start_time, event_end_time) }

/-! ## GetEvent.run -/

/-- Everything `GetEvent.run` reads: the oracle outcomes plus the two
wall-clock strings (real time is abstracted as an environment input). -/
structure GetEnv where
  service_env : ServiceEnv
  now_iso : String
  year_later_iso : String
  list_result : Except String (List CalEvent)
deriving DecidableEq, Repr

structure GetResult where
  messages : List String
  returned : List SlotEvent
deriving DecidableEq, Repr

/-- The message-building loop of `GetEvent.run`; `Except.error` is the
`str` of the `KeyError` an event without the start key raises. -/
def buildEventLines : List CalEvent → Except String (List String)
  | [] => .ok []
  | e :: rest =>
    match e.start with
    | none => .error "\x27start\x27"
    | some st =>
      let start := pyOptStr (st.dateTime.orElse fun _ => st.date)
      let summary := e.summary.getD "No Title"
      (buildEventLines rest).map fun lines => (start ++ ": " ++ summary) :: lines

/-- The line produced for one event with a start key (the `none` branch is
never reached under that hypothesis). -/
def eventLine (e : CalEvent) : String :=
  match e.start with
  | some st =>
    pyOptStr (st.dateTime.orElse fun _ => st.date) ++ ": " ++
      e.summary.getD "No Title"
  | none => ""

def GetEvent.run (env : GetEnv) : GetResult :=
  match get_calendar_service env.service_env with
  | .error e =>
    { messages := ["An error occurred while fetching events: " ++ e],
      returned := [] }
  | .ok none =>
    { messages := ["Failed to initialize Google Calendar service."],
      returned := [] }
  | .ok (some service) =>
    let events := get_events service env.now_iso env.year_later_iso env.list_result
    if events.isEmpty then
      { messages := ["You have no upcoming events."], returned := [] }
    else
      match buildEventLines events with
      | .error k =>
        { messages := ["An error occurred while fetching events: " ++ k],
          returned := [] }
      | .ok lines =>
        { messages := ["Your upcoming events:\n" ++ String.intercalate "\n" lines],
          returned := [] }

/-! ## String containment helpers (for "message contains ..." claims) -/

/-- `listPre p l`: `p` is a prefix of `l`. -/
def listPre : List Char → List Char → Bool
  | [], _ => true
  | _ :: _, [] => false
  | a :: as, b :: bs => a == b && listPre as bs

/-- `listSub p l`: `p` occurs contiguously inside `l`. -/
def listSub (p : List Char) : List Char → Bool
  | [] => listPre p []
  | l@(_ :: rest) => listPre p l || listSub p rest

/-- The string `s` starts with `pat`. -/
def strPre (pat s : String) : Bool := listPre pat.data s.data

/-- The string `s` contains `pat` as a contiguous substring. -/
def strSub (pat s : String) : Bool := listSub pat.data s.data

/-! ## Concrete environments (the spec example and small variants) -/

def credsOk : Creds := ⟨true, false, true⟩

/-- A service environment in which every remote step succeeds. -/
def svcEnvOk : ServiceEnv :=
  ⟨true, .ok credsOk, .ok (), .ok credsOk, .ok (), .ok ()⟩

/-- Credential phase succeeds, only `build` raises. -/
def svcEnvBuildErr : ServiceEnv :=
  ⟨true, .ok credsOk, .ok (), .ok credsOk, .ok (), .error "build failure"⟩

/-- A loaded, expired credential with a refresh token whose refresh
raises. -/
def svcEnvRefreshErr : ServiceEnv :=
  ⟨true, .ok ⟨false, true, true⟩, .error "refresh failure", .ok credsOk,
    .ok (), .ok ()⟩

def standupEvent : CalEvent :=
  ⟨some "Standup", some ⟨some "2024-06-01T09:30:00+07:00", none⟩⟩

def noSummaryEvent : CalEvent :=
  ⟨none, some ⟨some "2024-06-01T09:30:00+07:00", none⟩⟩

def createdEvent : CalEvent := ⟨some "Team Sync", none⟩

def dtJun1 : NaiveDT := ⟨2024, 6, 1, 9, 0, 0⟩

def addEnvHappy : AddEnv :=
  ⟨some "Team Sync", some "01/06/24 09:00:00", svcEnvOk, .ok [], .ok createdEvent⟩

def addEnvInsErr : AddEnv :=
  ⟨some "Team Sync", some "01/06/24 09:00:00", svcEnvOk, .ok [],
    .error "http 500"⟩

def addEnvEmptyName : AddEnv :=
  ⟨some "", some "01/06/24 09:00:00", svcEnvOk, .ok [], .ok createdEvent⟩

def addEnvConflict : AddEnv :=
  ⟨some "Team Sync", some "01/06/24 09:00:00", svcEnvOk, .ok [standupEvent],
    .ok createdEvent⟩

def addEnvNoSummary : AddEnv :=
  ⟨some "Team Sync", some "01/06/24 09:00:00", svcEnvOk, .ok [noSummaryEvent],
    .ok createdEvent⟩

def addEnvParseErr : AddEnv :=
  ⟨some "Team Sync", some "2024-06-01", svcEnvOk, .ok [], .ok createdEvent⟩

def addEnvBuildErr : AddEnv :=
  ⟨some "Team Sync", some "01/06/24 09:00:00", svcEnvBuildErr, .ok [],
    .ok createdEvent⟩

def getEnvTwo : GetEnv :=
  ⟨svcEnvOk, "now", "later", .ok [standupEvent, noSummaryEvent]⟩

def getEnvEmpty : GetEnv := ⟨svcEnvOk, "now", "later", .ok []⟩

def getEnvBuildErr : GetEnv :=
  ⟨svcEnvBuildErr, "now", "later", .ok [standupEvent]⟩

/-! ## Lemmas: substring and prefix facts -/

theorem listPre_of_pre {p a : List Char} (h : listPre p a = true)
    (b : List Char) : listPre p (a ++ b) = true := by
  induction p generalizing a with
  | nil => rfl
  | cons c cs ih =>
    cases a with
    | nil => simp [listPre] at h
    | cons x xs =>
      simp only [listPre, Bool.and_eq_true] at h ⊢
      exact ⟨h.1, ih h.2 ⟩

theorem listPre_refl_append (p b : List Char) : listPre p (p ++ b) = true := by
  induction p with
  | nil => rfl
  | cons c cs ih => simp [listPre, ih]

theorem listSub_of_pre {p l : List Char} (h : listPre p l = true) :
    listSub p l = true := by
  cases l with
  | nil => simpa [listSub] using h
  | cons x xs => simp [listSub, h]

theorem listSub_here (p b : List Char) : listSub p (p ++ b) = true :=
  listSub_of_pre (listPre_refl_append p b)

theorem listSub_cons {p l : List Char} (c : Char) (h : listSub p l = true) :
    listSub p (c :: l) = true := by
  simp [listSub, h]

theorem listSub_append_left {p l : List Char} (a : List Char)
    (h : listSub p l = true) : listSub p (a ++ l) = true := by
  induction a with
  | nil => simpa using h
  | cons c cs ih => exact listSub_cons c ih

theorem strPre_of_pre {p a : String} (h : strPre p a = true) (b : String) :
    strPre p (a ++ b) = true := by
  unfold strPre at *
  rw [String.data_append]
  exact listPre_of_pre h b.data

theorem strSub_here (p b : String) : strSub p (p ++ b) = true := by
  unfold strSub
  rw [String.data_append]
  exact listSub_here p.data b.data

theorem strSub_append_left {p l : String} (a : String)
    (h : strSub p l = true) : strSub p (a ++ l) = true := by
  unfold strSub at *
  rw [String.data_append]
  exact listSub_append_left a.data h

/-! ## Lemmas: calendar arithmetic -/

theorem daysBeforeMonth_succ (y m : Nat) (h : 1 ≤ m) :
    daysBeforeMonth y (m + 1) = daysBeforeMonth y m + daysInMonth y m := by
  match m, h with
  | m' + 1, _ => rfl

theorem daysBeforeMonth_twelve (y : Nat) :
    daysBeforeMonth y 12 = 334 + (if isLeap y then 1 else 0) := by
  rcases h : isLeap y <;> simp [daysBeforeMonth, daysInMonth, h]

theorem isLeap_iff (y : Nat) :
    isLeap y = true ↔ (y % 4 = 0 ∧ (y % 100 ≠ 0 ∨ y % 400 = 0)) := by
  simp [isLeap]

theorem daysBeforeYear_succ (y : Nat) (h : 1 ≤ y) :
    daysBeforeYear (y + 1) =
      daysBeforeYear y + 365 + (if isLeap y then 1 else 0) := by
  by_cases hl : isLeap y = true
  · rw [if_pos hl]
    rw [isLeap_iff] at hl
    unfold daysBeforeYear
    omega
  · rw [if_neg hl]
    rw [isLeap_iff] at hl
    push_neg at hl
    unfold daysBeforeYear
    omega

/-- The fixed-duration step: adding one hour to a valid civil datetime
advances absolute time by exactly 3600 seconds. -/
theorem NaiveDT.toSeconds_addOneHour (t : NaiveDT) (h : t.Valid) :
    t.addOneHour.toSeconds = t.toSeconds + 3600 := by
  obtain ⟨hy1, hy2, hm1, hm2, hd1, hd2, hh, hmin, hsec⟩ := h
  unfold NaiveDT.addOneHour
  split_ifs with h1 h2 h3
  · simp only [NaiveDT.toSeconds, NaiveDT.toDays]
    omega
  · simp only [NaiveDT.toSeconds, NaiveDT.toDays]
    omega
  · have hstep := daysBeforeMonth_succ t.year t.month hm1
    simp only [NaiveDT.toSeconds, NaiveDT.toDays, hstep]
    omega
  · have hm12 : t.month = 12 := by omega
    have h334 := daysBeforeMonth_twelve t.year
    have hys := daysBeforeYear_succ t.year hy1
    have hdim : daysInMonth t.year 12 = 31 := by simp [daysInMonth]
    rw [hm12] at hd2 h2
    rw [hdim] at hd2 h2
    simp only [NaiveDT.toSeconds, NaiveDT.toDays, hm12, h334, hys]
    have hd : daysBeforeMonth (t.year + 1) 1 = 0 := rfl
    rw [hd]
    rcases isLeap t.year <;> simp <;> omega

/-! ## Lemmas: parser results are valid datetimes -/

theorem mkDatetime_valid {year month day hour minute second : Nat} {t : NaiveDT}
    (h : mkDatetime year month day hour minute second = .ok t) : t.Valid := by
  unfold mkDatetime at h
  split_ifs at h with h1 h2 h3 h4 h5 h6
  injection h with h7
  rw [← h7]
  simp at h1 h2 h3 h4 h5 h6
  unfold NaiveDT.Valid
  simp
  omega

theorem strptime_valid {s : String} {t : NaiveDT} (h : strptime s = .ok t) :
    t.Valid := by
  unfold strptime at h
  rcases hscan : scanFormat s.data with _ | ⟨d, m, y, hh, mi, ss, rest⟩
  · rw [hscan] at h
    exact Except.noConfusion h
  · rw [hscan] at h
    by_cases hr : rest.isEmpty = true
    · simp only [hr, if_true] at h
      exact mkDatetime_valid h
    · simp only [hr, if_false] at h
      exact Except.noConfusion h

/-- `get_events` ignores the service handle and the window strings; its
result is determined by the remote outcome. -/
theorem get_events_eq_listOutcome (u : Unit) (a b : String)
    (r : Except String (List CalEvent)) : get_events u a b r = listOutcome r := by
  cases r <;> rfl

theorem listPre_refl (p : List Char) : listPre p p = true := by
  induction p with
  | nil => rfl
  | cons c cs ih => simp [listPre, ih]

theorem strSub_refl (p : String) : strSub p p = true :=
  listSub_of_pre (listPre_refl p.data)

theorem listSub_append_right {p a : List Char} (h : listSub p a = true)
    (b : List Char) : listSub p (a ++ b) = true := by
  induction a with
  | nil =>
    simp only [listSub] at h
    cases p with
    | nil => exact listSub_of_pre rfl
    | cons c cs => simp [listPre] at h
  | cons c cs ih =>
    simp only [listSub, Bool.or_eq_true] at h
    rcases h with h | h
    · exact listSub_of_pre (listPre_of_pre h b)
    · exact listSub_cons c (ih h)

theorem strSub_append_right {p a : String} (h : strSub p a = true)
    (b : String) : strSub p (a ++ b) = true := by
  unfold strSub at *
  rw [String.data_append]
  exact listSub_append_right h b.data

theorem buildEventLines_ok {es : List CalEvent}
    (h : ∀ e ∈ es, e.start.isSome) :
    buildEventLines es = .ok (es.map eventLine) := by
  induction es with
  | nil => rfl
  | cons e rest ih =>
    have he := h e (List.mem_cons_self e rest)
    rcases hst : e.start with _ | st
    · rw [hst] at he
      simp at he
    · unfold buildEventLines
      rw [hst]
      dsimp only
      rw [ih (fun x hx => h x (List.mem_cons_of_mem e hx))]
      simp only [Except.map, List.map]
      unfold eventLine
      rw [hst]

/-! ## Claims -/

/-- C8: on every input and every outcome path (missing slots, parse error,
service unavailable, conflict, insert success, insert failure, unexpected
error), `AddEventToCalendar.run` returns exactly the singleton list with
the reset-all-slots event. -/
theorem addEvent_always_resets_slots (env : AddEnv) :
    (AddEventToCalendar.run env).returned = [SlotEvent.allSlotsReset] := by
  unfold AddEventToCalendar.run
  dsimp only
  split_ifs with hpf
  · rfl
  · repeat' split
    all_goals rfl

/-- C9: on every input and every outcome path (service unavailable, empty
result, non-empty result, error), `GetEvent.run` returns the empty list of
slot-mutation events: it never resets or mutates any conversation slot. -/
theorem getEvent_never_mutates_slots (env : GetEnv) :
    (GetEvent.run env).returned = [] := by
  unfold GetEvent.run
  split
  · rfl
  · rfl
  · dsimp only
    split_ifs
    · rfl
    · split
      · rfl
      · rfl

/-- C1 counterexample: with both slots truthy, a parsing time string, the
service available and an empty conflict query, the claimed confirmation is
not always emitted.  First input: the remote insert fails, the handler
calls insert with the right arguments but emits only the internal-error
message, which does not contain the formatted start.  Second input: the
event-name slot holds the empty string (an event name), and the handler
does not even reach the insert call. -/
theorem addEvent_insert_failure_no_confirmation :
    ((AddEventToCalendar.run addEnvInsErr).insertCall =
        some ("Team Sync", ⟨⟨2024, 6, 1, 9, 0, 0⟩, 7⟩,
          ⟨⟨2024, 6, 1, 10, 0, 0⟩, 7⟩) ∧
      (AddEventToCalendar.run addEnvInsErr).messages =
        ["Failed to add the event due to an internal error."] ∧
      (∀ m ∈ (AddEventToCalendar.run addEnvInsErr).messages,
        strSub "01/06/24 09:00:00" m = false)) ∧
    ((AddEventToCalendar.run addEnvEmptyName).insertCall = none ∧
      (AddEventToCalendar.run addEnvEmptyName).messages =
        ["Please provide both the event name and time."]) := by
  decide

/-- C1 (amended): for every truthy event name and time string that parses
with format DD/MM/YY HH:MM:SS, when the service is available, the conflict
query returns no events, and the remote insertion succeeds, the Add-Event
handler calls insert_event with an end timestamp exactly one hour (3600
seconds of civil time, same attached offset) after the parsed start
timestamp, and emits a confirmation message containing both the formatted
start and the formatted end. -/
theorem addEvent_no_conflict_inserts_one_hour_end (env : AddEnv)
    (nm ts : String) (t : NaiveDT) (created : CalEvent)
    (hn : env.event_slot = some nm) (hnne : nm ≠ "")
    (ht : env.time_slot = some ts) (htne : ts ≠ "")
    (hp : strptime ts = .ok t)
    (hsvc : get_calendar_service env.service_env = .ok (some ()))
    (hlist : listOutcome env.list_result = [])
    (hins : env.insert_result = .ok created) :
    (AddEventToCalendar.run env).insertCall =
      some (nm, hcmLocalize t, (hcmLocalize t).addOneHour) ∧
    ((hcmLocalize t).addOneHour).dt.toSeconds =
      (hcmLocalize t).dt.toSeconds + 3600 ∧
    ((hcmLocalize t).addOneHour).offsetHours = (hcmLocalize t).offsetHours ∧
    ∃ msg, (AddEventToCalendar.run env).messages = [msg] ∧
      strSub ((hcmLocalize t).strftimeDDMMYY) msg = true ∧
      strSub ((hcmLocalize t).addOneHour.strftimeDDMMYY) msg = true := by
  have hrun : AddEventToCalendar.run env =
      { messages := ["Event \x27" ++ nm ++
          "\x27 successfully added to your calendar from " ++
          (hcmLocalize t).strftimeDDMMYY ++ " to " ++
          (hcmLocalize t).addOneHour.strftimeDDMMYY ++ "."],
        returned := [SlotEvent.allSlotsReset],
        listCall := some ((hcmLocalize t).isoformat,
          (hcmLocalize t).addOneHour.isoformat),
        insertCall := some (nm, hcmLocalize t, (hcmLocalize t).addOneHour) } := by
    unfold AddEventToCalendar.run
    dsimp only
    rw [hn, ht]
    simp only [pyFalsy, Option.getD_some]
    have h1 : (nm == "") = false := by simp [hnne]
    have h2 : (ts == "") = false := by simp [htne]
    simp only [h1, h2, Bool.or_self, Bool.false_eq_true, if_false]
    rw [hp]
    dsimp only
    rw [hsvc]
    dsimp only
    rw [get_events_eq_listOutcome, hlist]
    dsimp only
    unfold add_event
    rw [hins]
  refine ⟨by rw [hrun], ?_, rfl, ?_⟩
  · exact NaiveDT.toSeconds_addOneHour t (strptime_valid hp)
  · refine ⟨_, by rw [hrun], ?_, ?_⟩
    · exact strSub_append_right (strSub_append_right (strSub_append_right
        (strSub_append_left _ (strSub_refl _)) _) _) _
    · exact strSub_append_right (strSub_append_left _ (strSub_refl _)) _

/-- C1 witness: the spec worked example, evaluated: event "Team Sync" at
"01/06/24 09:00:00" with no conflicts is inserted with a one-hour end and
confirmed with both formatted timestamps. -/
theorem addEvent_no_conflict_inserts_one_hour_end_witness :
    (AddEventToCalendar.run addEnvHappy).insertCall =
      some ("Team Sync", hcmLocalize dtJun1, (hcmLocalize dtJun1).addOneHour) ∧
    ((hcmLocalize dtJun1).addOneHour).dt.toSeconds =
      (hcmLocalize dtJun1).dt.toSeconds + 3600 ∧
    ((hcmLocalize dtJun1).addOneHour).offsetHours =
      (hcmLocalize dtJun1).offsetHours ∧
    ∃ msg, (AddEventToCalendar.run addEnvHappy).messages = [msg] ∧
      strSub ((hcmLocalize dtJun1).strftimeDDMMYY) msg = true ∧
      strSub ((hcmLocalize dtJun1).addOneHour.strftimeDDMMYY) msg = true :=
  addEvent_no_conflict_inserts_one_hour_end addEnvHappy "Team Sync"
    "01/06/24 09:00:00" dtJun1 createdEvent rfl (by decide) rfl (by decide)
    (by decide) (by decide) rfl rfl

/-- C2: whenever the conflict query returns a non-empty sequence, the
Add-Event handler (slots truthy, time parsed, service available) queried
exactly the proposed window — start and start-plus-one-hour, unpadded —
does not call insert_event, and emits a message containing the first
returned event summary and its start time. -/
theorem addEvent_conflict_blocks_insert (env : AddEnv)
    (nm ts : String) (t : NaiveDT) (ev : CalEvent) (rest : List CalEvent)
    (st : EventStart) (sm sv : String)
    (hn : env.event_slot = some nm) (hnne : nm ≠ "")
    (ht : env.time_slot = some ts) (htne : ts ≠ "")
    (hp : strptime ts = .ok t)
    (hsvc : get_calendar_service env.service_env = .ok (some ()))
    (hlist : listOutcome env.list_result = ev :: rest)
    (hst : ev.start = some st)
    (hsv : (st.dateTime.orElse fun _ => st.date) = some sv)
    (hsm : ev.summary = some sm) :
    (AddEventToCalendar.run env).listCall =
      some ((hcmLocalize t).isoformat, (hcmLocalize t).addOneHour.isoformat) ∧
    (AddEventToCalendar.run env).insertCall = none ∧
    ∃ msg, (AddEventToCalendar.run env).messages = [msg] ∧
      strSub sm msg = true ∧ strSub sv msg = true := by
  have hrun : AddEventToCalendar.run env =
      { messages := ["Cannot create new event because the time slot is already taken by \x27" ++
          sm ++ "\x27 at " ++ sv ++ "."],
        returned := [SlotEvent.allSlotsReset],
        listCall := some ((hcmLocalize t).isoformat,
          (hcmLocalize t).addOneHour.isoformat),
        insertCall := none } := by
    unfold AddEventToCalendar.run
    dsimp only
    rw [hn, ht]
    simp only [pyFalsy, Option.getD_some]
    have h1 : (nm == "") = false := by simp [hnne]
    have h2 : (ts == "") = false := by simp [htne]
    simp only [h1, h2, Bool.or_self, Bool.false_eq_true, if_false]
    rw [hp]
    dsimp only
    rw [hsvc]
    dsimp only
    rw [get_events_eq_listOutcome, hlist]
    dsimp only
    rw [hst]
    dsimp only
    rw [hsm]
    dsimp only
    rw [hsv]
    rfl
  refine ⟨by rw [hrun], by rw [hrun], _, by rw [hrun], ?_, ?_⟩
  · exact strSub_append_right (strSub_append_right (strSub_append_right
      (strSub_append_left _ (strSub_refl _)) _) _) _
  · exact strSub_append_right (strSub_append_left _ (strSub_refl _)) _

/-- C2 witness: a "Standup" event occupying the window blocks "Team Sync"
at 01/06/24 09:00:00 and is reported with its summary and start. -/
theorem addEvent_conflict_blocks_insert_witness :
    (AddEventToCalendar.run addEnvConflict).listCall =
      some ((hcmLocalize dtJun1).isoformat,
        (hcmLocalize dtJun1).addOneHour.isoformat) ∧
    (AddEventToCalendar.run addEnvConflict).insertCall = none ∧
    ∃ msg, (AddEventToCalendar.run addEnvConflict).messages = [msg] ∧
      strSub "Standup" msg = true ∧
      strSub "2024-06-01T09:30:00+07:00" msg = true :=
  addEvent_conflict_blocks_insert addEnvConflict "Team Sync"
    "01/06/24 09:00:00" dtJun1 standupEvent []
    ⟨some "2024-06-01T09:30:00+07:00", none⟩ "Standup"
    "2024-06-01T09:30:00+07:00" rfl (by decide) rfl (by decide) (by decide)
    (by decide) rfl rfl rfl rfl

/-- C3: for every time string that fails to parse against the fixed
format (with both slots truthy), the Add-Event handler emits one message
beginning "Time parsing error:" and calls neither insert_event nor
get_events. -/
theorem addEvent_parse_error_no_insert (env : AddEnv) (nm ts ve : String)
    (hn : env.event_slot = some nm) (hnne : nm ≠ "")
    (ht : env.time_slot = some ts) (htne : ts ≠ "")
    (hp : strptime ts = .error ve) :
    ∃ msg, (AddEventToCalendar.run env).messages = [msg] ∧
      strPre "Time parsing error:" msg = true ∧
      (AddEventToCalendar.run env).insertCall = none ∧
      (AddEventToCalendar.run env).listCall = none := by
  have hrun : AddEventToCalendar.run env =
      { messages := ["Time parsing error: " ++ ve ++
          ". Please ensure the time is in \x27DD/MM/YY HH:MM:SS\x27 format."],
        returned := [SlotEvent.allSlotsReset],
        listCall := none, insertCall := none } := by
    unfold AddEventToCalendar.run
    dsimp only
    rw [hn, ht]
    simp only [pyFalsy, Option.getD_some]
    have h1 : (nm == "") = false := by simp [hnne]
    have h2 : (ts == "") = false := by simp [htne]
    simp only [h1, h2, Bool.or_self, Bool.false_eq_true, if_false]
    rw [hp]
  refine ⟨_, by rw [hrun], ?_, by rw [hrun], by rw [hrun]⟩
  have hpre : strPre "Time parsing error:" "Time parsing error: " = true := by
    decide
  exact strPre_of_pre (strPre_of_pre hpre ve) _

/-- C3 witness: the spec example "2024-06-01" fails to parse; the handler
utters the format-error message and makes no remote calls. -/
theorem addEvent_parse_error_no_insert_witness :
    ∃ msg, (AddEventToCalendar.run addEnvParseErr).messages = [msg] ∧
      strPre "Time parsing error:" msg = true ∧
      (AddEventToCalendar.run addEnvParseErr).insertCall = none ∧
      (AddEventToCalendar.run addEnvParseErr).listCall = none :=
  addEvent_parse_error_no_insert addEnvParseErr "Team Sync" "2024-06-01"
    ("time data \x272024-06-01\x27 does not match format \x27%d/%m/%y %H:%M:%S\x27")
    rfl (by decide) rfl (by decide) (by decide)

/-- C4: for every non-empty event list returned by the conflict-free
query (each event carrying its start key, as the Event data model
guarantees), the Get-Events handler emits a single message of one line
per event, in order, each line rendered start-colon-summary with
"No Title" replacing an absent summary, and returns no slot mutations. -/
theorem getEvent_nonempty_lists_lines (env : GetEnv) (es : List CalEvent)
    (hsvc : get_calendar_service env.service_env = .ok (some ()))
    (hlist : listOutcome env.list_result = es) (hne : es ≠ [])
    (hstart : ∀ e ∈ es, e.start.isSome) :
    (GetEvent.run env).messages =
      ["Your upcoming events:\n" ++ String.intercalate "\n" (es.map eventLine)] ∧
    (GetEvent.run env).returned = [] := by
  unfold GetEvent.run
  rw [hsvc]
  dsimp only
  rw [get_events_eq_listOutcome, hlist]
  have hie : es.isEmpty = false := by
    cases es with
    | nil => exact absurd rfl hne
    | cons a l => rfl
  rw [hie]
  simp only [Bool.false_eq_true, if_false]
  rw [buildEventLines_ok hstart]
  exact ⟨rfl, rfl⟩

/-- C4 witness: two events, the second without a summary, are rendered in
order with "No Title" for the missing summary. -/
theorem getEvent_nonempty_lists_lines_witness :
    (GetEvent.run getEnvTwo).messages =
      ["Your upcoming events:\n" ++ String.intercalate "\n"
        ([standupEvent, noSummaryEvent].map eventLine)] ∧
    (GetEvent.run getEnvTwo).returned = [] :=
  getEvent_nonempty_lists_lines getEnvTwo [standupEvent, noSummaryEvent]
    (by decide) rfl (by decide) (by decide)

/-- C5: when the query returns the empty sequence and the service was
acquired, the Get-Events handler emits exactly "You have no upcoming
events." and returns an empty list of slot-mutation events. -/
theorem getEvent_empty_no_upcoming (env : GetEnv)
    (hsvc : get_calendar_service env.service_env = .ok (some ()))
    (hlist : listOutcome env.list_result = []) :
    (GetEvent.run env).messages = ["You have no upcoming events."] ∧
    (GetEvent.run env).returned = [] := by
  unfold GetEvent.run
  rw [hsvc]
  dsimp only
  rw [get_events_eq_listOutcome, hlist]
  exact ⟨rfl, rfl⟩

/-- C5 witness: an empty remote result produces exactly the no-upcoming
message. -/
theorem getEvent_empty_no_upcoming_witness :
    (GetEvent.run getEnvEmpty).messages = ["You have no upcoming events."] ∧
    (GetEvent.run getEnvEmpty).returned = [] :=
  getEvent_empty_no_upcoming getEnvEmpty (by decide) rfl

/-- C6 counterexample: an error while acquiring the credential (here a
failing refresh of an expired token) propagates out of
get_calendar_service as an exception instead of the claimed Failure
value None. -/
theorem getService_acquire_error_raises :
    get_calendar_service svcEnvRefreshErr = .error "refresh failure" ∧
    get_calendar_service svcEnvRefreshErr ≠ .ok none := by
  decide

/-- C6 (amended): only errors raised while building the service handle
are caught by get_calendar_service and returned as the Failure value
None; each handler then treats None as service unavailable by emitting
the failure message and terminating.  Errors in the credential phase
(load, refresh, interactive flow, save) propagate to the caller as
exceptions. -/
theorem getService_build_error_unavailable (senv : ServiceEnv) (c : Creds)
    (e : String)
    (hacq : acquire_creds senv = .ok c)
    (hbuild : senv.build_result = .error e) :
    get_calendar_service senv = .ok none ∧
    (∀ (aenv : AddEnv) (nm ts : String),
      aenv.service_env = senv → aenv.event_slot = some nm → nm ≠ "" →
      aenv.time_slot = some ts → ts ≠ "" → (∃ t, strptime ts = .ok t) →
      (AddEventToCalendar.run aenv).messages =
        ["Failed to initialize Google Calendar service."] ∧
      (AddEventToCalendar.run aenv).returned = [SlotEvent.allSlotsReset] ∧
      (AddEventToCalendar.run aenv).insertCall = none) ∧
    (∀ genv : GetEnv, genv.service_env = senv →
      (GetEvent.run genv).messages =
        ["Failed to initialize Google Calendar service."] ∧
      (GetEvent.run genv).returned = []) := by
  have hsvc : get_calendar_service senv = .ok none := by
    unfold get_calendar_service
    rw [hacq]
    simp only [Except.bind, bind]
    rw [hbuild]
    rfl
  refine ⟨hsvc, ?_, ?_⟩
  · intro aenv nm ts haenv hn hnne ht htne ⟨t, hp⟩
    have hrun : AddEventToCalendar.run aenv =
        { messages := ["Failed to initialize Google Calendar service."],
          returned := [SlotEvent.allSlotsReset],
          listCall := none, insertCall := none } := by
      unfold AddEventToCalendar.run
      dsimp only
      rw [hn, ht]
      simp only [pyFalsy, Option.getD_some]
      have h1 : (nm == "") = false := by simp [hnne]
      have h2 : (ts == "") = false := by simp [htne]
      simp only [h1, h2, Bool.or_self, Bool.false_eq_true, if_false]
      rw [hp]
      dsimp only
      rw [haenv, hsvc]
    rw [hrun]
    exact ⟨rfl, rfl, rfl⟩
  · intro genv hgenv
    unfold GetEvent.run
    rw [hgenv, hsvc]
    exact ⟨rfl, rfl⟩

/-- C6 witness: a build failure yields None and both handlers emit the
unavailable-service message. -/
theorem getService_build_error_unavailable_witness :
    get_calendar_service svcEnvBuildErr = .ok none ∧
    (AddEventToCalendar.run addEnvBuildErr).messages =
      ["Failed to initialize Google Calendar service."] ∧
    (GetEvent.run getEnvBuildErr).messages =
      ["Failed to initialize Google Calendar service."] := by
  have h := getService_build_error_unavailable svcEnvBuildErr credsOk
    "build failure" (by decide) rfl
  exact ⟨h.1,
    (h.2.1 addEnvBuildErr "Team Sync" "01/06/24 09:00:00" rfl rfl (by decide)
      rfl (by decide) ⟨dtJun1, by decide⟩).1,
    (h.2.2 getEnvBuildErr rfl).1⟩

/-- C7: the list/insert error handling is asymmetric.  A remote error
during the list operation makes get_events return the empty sequence with
no failure visible to its caller; a remote error during insertion makes
add_event return the Failure value None, upon which the Add-Event handler
(slots truthy, time parsed, service available, no conflict) emits the
explicit internal-error message, having attempted the insert. -/
theorem list_insert_error_asymmetry :
    (∀ (tmin tmax e : String), get_events () tmin tmax (.error e) = []) ∧
    (∀ (nm : String) (s en : AwareDT) (e : String),
      add_event () nm s en (.error e) = none) ∧
    (∀ (env : AddEnv) (nm ts : String) (t : NaiveDT) (e : String),
      env.event_slot = some nm → nm ≠ "" →
      env.time_slot = some ts → ts ≠ "" →
      strptime ts = .ok t →
      get_calendar_service env.service_env = .ok (some ()) →
      listOutcome env.list_result = [] →
      env.insert_result = .error e →
      (AddEventToCalendar.run env).messages =
        ["Failed to add the event due to an internal error."] ∧
      (AddEventToCalendar.run env).insertCall =
        some (nm, hcmLocalize t, (hcmLocalize t).addOneHour)) := by
  refine ⟨fun _ _ _ => rfl, fun _ _ _ _ => rfl, ?_⟩
  intro env nm ts t e hn hnne ht htne hp hsvc hlist hins
  have hrun : AddEventToCalendar.run env =
      { messages := ["Failed to add the event due to an internal error."],
        returned := [SlotEvent.allSlotsReset],
        listCall := some ((hcmLocalize t).isoformat,
          (hcmLocalize t).addOneHour.isoformat),
        insertCall := some (nm, hcmLocalize t, (hcmLocalize t).addOneHour) } := by
    unfold AddEventToCalendar.run
    dsimp only
    rw [hn, ht]
    simp only [pyFalsy, Option.getD_some]
    have h1 : (nm == "") = false := by simp [hnne]
    have h2 : (ts == "") = false := by simp [htne]
    simp only [h1, h2, Bool.or_self, Bool.false_eq_true, if_false]
    rw [hp]
    dsimp only
    rw [hsvc]
    dsimp only
    rw [get_events_eq_listOutcome, hlist]
    dsimp only
    unfold add_event
    rw [hins]
  rw [hrun]
  exact ⟨rfl, rfl⟩

/-- C7 witness: a failing list call yields the empty sequence, a failing
insert yields None, and the handler reports the internal error after
attempting the insert. -/
theorem list_insert_error_asymmetry_witness :
    get_events () "a" "b" (.error "http 500") = [] ∧
    add_event () "Team Sync" ⟨dtJun1, 7⟩ ⟨dtJun1.addOneHour, 7⟩
      (.error "http 500") = none ∧
    (AddEventToCalendar.run addEnvInsErr).messages =
      ["Failed to add the event due to an internal error."] := by
  have h := list_insert_error_asymmetry
  exact ⟨h.1 "a" "b" "http 500",
    h.2.1 "Team Sync" ⟨dtJun1, 7⟩ ⟨dtJun1.addOneHour, 7⟩ "http 500",
    (h.2.2 addEnvInsErr "Team Sync" "01/06/24 09:00:00" dtJun1 "http 500"
      rfl (by decide) rfl (by decide) (by decide) (by decide) rfl rfl).1⟩

/-- C10: when the first event returned by the conflict query lacks a
summary key, the Add-Event handler emits the generic unexpected-error
message (from the KeyError raised in the conflict branch, on the summary
key, or on the start key when that one is missing too) instead of the
conflict message, does not call insert_event, and still returns the
reset-all-slots event. -/
theorem addEvent_missing_summary_unexpected_error (env : AddEnv)
    (nm ts : String) (t : NaiveDT) (ev : CalEvent) (rest : List CalEvent)
    (hn : env.event_slot = some nm) (hnne : nm ≠ "")
    (ht : env.time_slot = some ts) (htne : ts ≠ "")
    (hp : strptime ts = .ok t)
    (hsvc : get_calendar_service env.service_env = .ok (some ()))
    (hlist : listOutcome env.list_result = ev :: rest)
    (hsm : ev.summary = none) :
    ∃ k, (AddEventToCalendar.run env).messages =
        ["An unexpected error occurred: " ++ k] ∧
      (k = "\x27summary\x27" ∨ k = "\x27start\x27") ∧
      (AddEventToCalendar.run env).insertCall = none ∧
      (AddEventToCalendar.run env).returned = [SlotEvent.allSlotsReset] := by
  rcases hst : ev.start with _ | st
  · have hrun : AddEventToCalendar.run env =
        { messages := ["An unexpected error occurred: \x27start\x27"],
          returned := [SlotEvent.allSlotsReset],
          listCall := some ((hcmLocalize t).isoformat,
            (hcmLocalize t).addOneHour.isoformat),
          insertCall := none } := by
      unfold AddEventToCalendar.run
      dsimp only
      rw [hn, ht]
      simp only [pyFalsy, Option.getD_some]
      have h1 : (nm == "") = false := by simp [hnne]
      have h2 : (ts == "") = false := by simp [htne]
      simp only [h1, h2, Bool.or_self, Bool.false_eq_true, if_false]
      rw [hp]
      dsimp only
      rw [hsvc]
      dsimp only
      rw [get_events_eq_listOutcome, hlist]
      dsimp only
      rw [hst]
    refine ⟨"\x27start\x27", by rw [hrun]; dsimp only; decide, Or.inr rfl,
      by rw [hrun], by rw [hrun]⟩
  · have hrun : AddEventToCalendar.run env =
        { messages := ["An unexpected error occurred: \x27summary\x27"],
          returned := [SlotEvent.allSlotsReset],
          listCall := some ((hcmLocalize t).isoformat,
            (hcmLocalize t).addOneHour.isoformat),
          insertCall := none } := by
      unfold AddEventToCalendar.run
      dsimp only
      rw [hn, ht]
      simp only [pyFalsy, Option.getD_some]
      have h1 : (nm == "") = false := by simp [hnne]
      have h2 : (ts == "") = false := by simp [htne]
      simp only [h1, h2, Bool.or_self, Bool.false_eq_true, if_false]
      rw [hp]
      dsimp only
      rw [hsvc]
      dsimp only
      rw [get_events_eq_listOutcome, hlist]
      dsimp only
      rw [hst]
      dsimp only
      rw [hsm]
    refine ⟨"\x27summary\x27", by rw [hrun]; dsimp only; decide, Or.inl rfl,
      by rw [hrun], by rw [hrun]⟩

/-- C10 witness: a conflicting event without a summary key makes the
handler utter the unexpected-error message for the summary KeyError,
skip the insert, and reset all slots. -/
theorem addEvent_missing_summary_unexpected_error_witness :
    ∃ k, (AddEventToCalendar.run addEnvNoSummary).messages =
        ["An unexpected error occurred: " ++ k] ∧
      (k = "\x27summary\x27" ∨ k = "\x27start\x27") ∧
      (AddEventToCalendar.run addEnvNoSummary).insertCall = none ∧
      (AddEventToCalendar.run addEnvNoSummary).returned =
        [SlotEvent.allSlotsReset] :=
  addEvent_missing_summary_unexpected_error addEnvNoSummary "Team Sync"
    "01/06/24 09:00:00" dtJun1 noSummaryEvent [] rfl (by decide) rfl
    (by decide) (by decide) (by decide) rfl rfl
